import Mathlib

/-!
Shallow embedding of `src/Malmo/src/AgentHost.cpp`: the world-state
aggregator (drain/peek, per-kind merge policies), the mission-control
message handler, and the client discovery protocol (reserve, find server,
find client).  Network sends are modelled by an injected probe function
`ClientInfo → String → Option String`, where `none` models the thrown
exception of an unreachable host and `some reply` the short reply.
Timestamps are modelled as naturals; reward values as integers.
-/

set_option autoImplicit false

namespace Malmo

/-- Timestamp plus string payload, mirroring `TimestampedString`. -/
structure TimestampedString where
  timestamp : Nat
  text : String
  deriving Repr, DecidableEq

/-- Modelled from the spec: `TimestampedReward` (class outside src/) is an
immutable timestamp plus numeric reward value. -/
structure TimestampedReward where
  timestamp : Nat
  value : Int
  deriving Repr, DecidableEq

/-- Timestamp plus frame payload, mirroring `TimestampedVideoFrame`. -/
structure TimestampedVideoFrame where
  timestamp : Nat
  width : Nat
  height : Nat
  channels : Nat
  pixels : List Nat
  deriving Repr, DecidableEq

/-- Modelled from the spec: `TimestampedReward::add` (outside src/)
accumulates the other reward's value into the receiver; the receiver's
timestamp is kept (`// (timestamp is that of latest reward, even if zero)`). -/
def TimestampedReward.add (r other : TimestampedReward) : TimestampedReward :=
  { timestamp := r.timestamp, value := r.value + other.value }

inductive VideoPolicy where
  | LATEST_FRAME_ONLY
  | KEEP_ALL_FRAMES
  deriving Repr, DecidableEq

inductive RewardsPolicy where
  | LATEST_REWARD_ONLY
  | SUM_REWARDS
  | KEEP_ALL_REWARDS
  deriving Repr, DecidableEq

inductive ObservationsPolicy where
  | LATEST_OBSERVATION_ONLY
  | KEEP_ALL_OBSERVATIONS
  deriving Repr, DecidableEq

/-- The aggregator's snapshot, mirroring `WorldState` (fields as used by
`AgentHost.cpp`). -/
structure WorldState where
  is_mission_running : Bool
  has_mission_begun : Bool
  observations : List TimestampedString
  rewards : List TimestampedReward
  video_frames : List TimestampedVideoFrame
  mission_control_messages : List TimestampedString
  errors : List TimestampedString
  number_of_observations_since_last_state : Nat
  number_of_rewards_since_last_state : Nat
  number_of_video_frames_since_last_state : Nat
  deriving Repr, DecidableEq

/-- Modelled from the spec: `WorldState::clear` (outside src/) resets every
sequence to empty, every counter to zero and both flags to false (the
comment at `AgentHost.cpp:189` confirms it sets `is_mission_running` to
false, and section 4.3 of the spec says mission start clears the world
state with flags false). -/
def WorldState.clear : WorldState :=
  { is_mission_running := false
    has_mission_begun := false
    observations := []
    rewards := []
    video_frames := []
    mission_control_messages := []
    errors := []
    number_of_observations_since_last_state := 0
    number_of_rewards_since_last_state := 0
    number_of_video_frames_since_last_state := 0 }

/-- `AgentHost::getWorldState`: returns the accumulated snapshot and the
world state retained afterwards (cleared, with the two flags restored). -/
def getWorldState (s : WorldState) : WorldState × WorldState :=
  let old_world_state := s
  let retained :=
    { WorldState.clear with
      is_mission_running := old_world_state.is_mission_running
      has_mission_begun := old_world_state.has_mission_begun }
  (old_world_state, retained)

/-- `AgentHost::peekWorldState`: returns a copy without mutating. -/
def peekWorldState (s : WorldState) : WorldState := s

/-- `AgentHost::processReceivedReward`: merge one reward into the world
state according to the rewards policy, then bump the counter. -/
def processReceivedReward (rewards_policy : RewardsPolicy) (s : WorldState)
    (reward : TimestampedReward) : WorldState :=
  let s' :=
    match rewards_policy with
    | .LATEST_REWARD_ONLY => { s with rewards := [reward] }
    | .SUM_REWARDS =>
      match s.rewards with
      | [] => { s with rewards := [reward] }
      | front :: _ => { s with rewards := [reward.add front] }
    | .KEEP_ALL_REWARDS => { s with rewards := s.rewards ++ [reward] }
  { s' with number_of_rewards_since_last_state :=
      s'.number_of_rewards_since_last_state + 1 }

/-- `AgentHost::onVideo`: merge one frame according to the video policy,
then bump the counter. -/
def onVideo (video_policy : VideoPolicy) (s : WorldState)
    (message : TimestampedVideoFrame) : WorldState :=
  let s' :=
    match video_policy with
    | .LATEST_FRAME_ONLY => { s with video_frames := [message] }
    | .KEEP_ALL_FRAMES => { s with video_frames := s.video_frames ++ [message] }
  { s' with number_of_video_frames_since_last_state :=
      s'.number_of_video_frames_since_last_state + 1 }

/-- `AgentHost::onObservation`: merge one observation according to the
observations policy, then bump the counter. -/
def onObservation (observations_policy : ObservationsPolicy) (s : WorldState)
    (message : TimestampedString) : WorldState :=
  let s' :=
    match observations_policy with
    | .LATEST_OBSERVATION_ONLY => { s with observations := [message] }
    | .KEEP_ALL_OBSERVATIONS => { s with observations := s.observations ++ [message] }
  { s' with number_of_observations_since_last_state :=
      s'.number_of_observations_since_last_state + 1 }

/-- `AgentHost::onReward`: parse the message text into a reward
(`TimestampedReward::createFromSimpleString` is outside src/, so the parser
is injected); on success merge it, on failure append one error entry. -/
def onReward (parse : Nat → String → Except String TimestampedReward)
    (rewards_policy : RewardsPolicy) (s : WorldState)
    (message : TimestampedString) : WorldState :=
  match parse message.timestamp message.text with
  | .ok reward => processReceivedReward rewards_policy s reward
  | .error e =>
    { s with errors := s.errors ++
        [{ timestamp := message.timestamp
           text := "Error parsing Reward message: " ++ e ++ " : " ++ message.text }] }

/-- One candidate remote host, mirroring `ClientInfo`. -/
structure ClientInfo where
  ip_address : String
  port : Int
  deriving Repr, DecidableEq, Inhabited

/-- Modelled from the spec: `MissionInitSpec` (class outside src/) is the
mutable negotiation record: assigned telemetry ports, chosen client
address/port, shared-server address/port if known, role, experiment id,
and the client-side commands port learnt at mission start. -/
structure MissionInitSpec where
  experiment_id : String
  role : Int
  agent_mission_control_port : Int
  agent_video_port : Int
  agent_rewards_port : Int
  agent_observations_port : Int
  client_address : String
  client_mission_control_port : Int
  client_commands_port : Int
  minecraft_server : Option (String × Int)
  deriving Repr, DecidableEq

def MissionInitSpec.hasMinecraftServerInformation (m : MissionInitSpec) : Bool :=
  m.minecraft_server.isSome

/-- Modelled from the spec: the `MissionInitSpec(mission, experiment_id,
role)` constructor (outside src/) builds a negotiation record with default
settings; concrete default port values are irrelevant to the claims. -/
def MissionInitSpec.make (experiment_id : String) (role : Int) : MissionInitSpec :=
  { experiment_id := experiment_id
    role := role
    agent_mission_control_port := 0
    agent_video_port := 0
    agent_rewards_port := 0
    agent_observations_port := 0
    client_address := "127.0.0.1"
    client_mission_control_port := 0
    client_commands_port := 0
    minecraft_server := none }

/-- Recording flags of a `MissionRecordSpec` / `MissionRecord` (outside
src/), modelled from the spec as the booleans `AgentHost.cpp` queries. -/
structure MissionRecordSpec where
  is_recording : Bool
  is_recording_mp4 : Bool
  is_recording_rewards : Bool
  is_recording_observations : Bool
  is_recording_commands : Bool
  deriving Repr, DecidableEq

/-- A `StringServer` listener as observed by `AgentHost.cpp`: its bound
port and whether it is currently recording to file. -/
structure StringServerInfo where
  port : Int
  recording : Bool
  deriving Repr, DecidableEq

/-- A `VideoServer` listener as observed by `AgentHost.cpp`. -/
structure VideoServerInfo where
  port : Int
  width : Int
  height : Int
  channels : Int
  recording : Bool
  deriving Repr, DecidableEq

/-- The mutable fields of `AgentHost` that the embedded operations read or
write (the io_service, threads and schema check are external). -/
structure AgentHostState where
  world_state : WorldState
  video_policy : VideoPolicy
  rewards_policy : RewardsPolicy
  observations_policy : ObservationsPolicy
  current_role : Int
  current_mission_init : Option MissionInitSpec
  current_mission_record : Option MissionRecordSpec
  mission_control_server : Option StringServerInfo
  video_server : Option VideoServerInfo
  rewards_server : Option StringServerInfo
  observations_server : Option StringServerInfo
  commands_stream_open : Bool
  commands_connection : Bool
  rewards_server_recorded : List TimestampedReward
  deriving Repr, DecidableEq

/-- `AgentHost::close`: mark not running, stop recording on every
listener, close the commands stream, drop the commands connection. -/
def close (h : AgentHostState) : AgentHostState :=
  { h with
    world_state := { h.world_state with is_mission_running := false }
    video_server := h.video_server.map (fun v => { v with recording := false })
    observations_server := h.observations_server.map (fun s => { s with recording := false })
    rewards_server := h.rewards_server.map (fun s => { s with recording := false })
    commands_stream_open := false
    commands_connection := false }

/-- `AgentHost::listenForMissionControlMessages`: reuse the existing
server when the port is 0 or matches, otherwise create a fresh one. -/
def listenForMissionControlMessages (h : AgentHostState) (port : Int) : AgentHostState :=
  match h.mission_control_server with
  | some srv =>
    if port == 0 || srv.port == port then h
    else { h with mission_control_server := some { port := port, recording := srv.recording } }
  | none => { h with mission_control_server := some { port := port, recording := false } }

/-- `AgentHost::listenForVideo`: recreate unless port/width/height/channels
all match; MP4 sink attachment is external; `startRecording` always runs. -/
def listenForVideo (h : AgentHostState) (port width height channels : Int) : AgentHostState :=
  let recreate :=
    match h.video_server with
    | none => true
    | some v => (port != 0 && v.port != port) || v.width != width ||
        v.height != height || v.channels != channels
  let created : VideoServerInfo :=
    { port := port, width := width, height := height, channels := channels, recording := false }
  let h' := if recreate then { h with video_server := some created } else h
  { h' with video_server := h'.video_server.map (fun v => { v with recording := true }) }

/-- `AgentHost::listenForRewards`: reuse unless a different nonzero port is
requested; `record` is applied when reward recording is requested. -/
def listenForRewards (h : AgentHostState) (port : Int) (record_rewards : Bool) : AgentHostState :=
  let h' :=
    match h.rewards_server with
    | some srv =>
      if port != 0 && srv.port != port then
        { h with rewards_server := some { port := port, recording := false } }
      else h
    | none => { h with rewards_server := some { port := port, recording := false } }
  if record_rewards then
    { h' with rewards_server := h'.rewards_server.map (fun s => { s with recording := true }) }
  else h'

/-- `AgentHost::listenForObservations`: same shape as the rewards listener. -/
def listenForObservations (h : AgentHostState) (port : Int) (record_observations : Bool) : AgentHostState :=
  let h' :=
    match h.observations_server with
    | some srv =>
      if port != 0 && srv.port != port then
        { h with observations_server := some { port := port, recording := false } }
      else h
    | none => { h with observations_server := some { port := port, recording := false } }
  if record_observations then
    { h' with observations_server := h'.observations_server.map (fun s => { s with recording := true }) }
  else h'

def serverPort (s : Option StringServerInfo) : Int :=
  (s.map StringServerInfo.port).getD 0

/-- Mission parameters as read by `AgentHost.cpp` (per-role accessors of
the caller-owned `MissionSpec`). -/
structure MissionSpec where
  number_of_agents : Int
  is_video_requested : Int → Bool
  video_width : Int → Int
  video_height : Int → Int
  video_channels : Int → Int

/-- `AgentHost::initializeOurServers`: build the negotiation record, store
the recording spec and role, start/reuse the four listeners, reset the
commands stream, then write each effective port back into the record. -/
def initializeOurServers (h : AgentHostState) (mission : MissionSpec)
    (mission_record : MissionRecordSpec) (role : Int)
    (unique_experiment_id : String) : AgentHostState :=
  let mi := MissionInitSpec.make unique_experiment_id role
  let h1 := { h with
    current_mission_init := some mi
    current_mission_record := some mission_record
    current_role := role }
  let h2 := listenForMissionControlMessages h1 mi.agent_mission_control_port
  let h3 :=
    if mission.is_video_requested role then
      listenForVideo h2 mi.agent_video_port (mission.video_width role)
        (mission.video_height role) (mission.video_channels role)
    else h2
  let h4 := listenForRewards h3 mi.agent_rewards_port mission_record.is_recording_rewards
  let h5 := listenForObservations h4 mi.agent_observations_port mission_record.is_recording_observations
  let h5a := if h5.commands_stream_open then { h5 with commands_stream_open := false } else h5
  let h6 := if mission_record.is_recording_commands then { h5a with commands_stream_open := true } else h5a
  { h6 with current_mission_init := h6.current_mission_init.map (fun m =>
      { m with
        agent_mission_control_port := serverPort h6.mission_control_server
        agent_observations_port := serverPort h6.observations_server
        agent_video_port :=
          match h6.video_server with
          | some v => v.port
          | none => m.agent_video_port
        agent_rewards_port := serverPort h6.rewards_server }) }

/-! Discovery protocol.  `SendStringAndGetShortReply` is the external
point-to-point primitive; it is injected as a probe function, `none`
standing for a thrown exception (unreachable host). -/

/-- Network probe capability, modelling `SendStringAndGetShortReply`. -/
abbrev Probe := ClientInfo → String → Option String

/-- `reply.find(token) == 0`: the reply begins with the token (the
prefix comparison used for reservation and server-found replies). -/
def beginsWith (token reply : String) : Bool :=
  List.isPrefixOf token.toList reply.toList

/-- Reply token accepted during reservation (`malmo_reservation_prefix`
in the source, compared by "begins with"). -/
def malmo_reservation_token : String := "MALMOOK"

/-- Server-found reply token, compared by "begins with". -/
def malmo_server_token : String := "MALMOS"

/-- Mission-accepted reply, compared by exact equality in `findClient`. -/
def malmo_mission_accepted : String := "MALMOOK"

/-- Cancellation message sent when releasing a provisional reservation. -/
def malmo_cancel_request : String := "MALMO_CANCEL_REQUEST\n"

/-- Modelled from the spec: the build-time `MALMO_VERSION` constant; its
concrete value is irrelevant to the claims. -/
def MALMO_VERSION : String := "0.37.0"

def reservation_request (experiment_id : String) : String :=
  "MALMO_REQUEST_CLIENT:" ++ MALMO_VERSION ++ ":20000:" ++ experiment_id ++ "\n"

def find_server_request (experiment_id : String) : String :=
  "MALMO_FIND_SERVER" ++ experiment_id ++ "\n"

def experimentIdOf (h : AgentHostState) : String :=
  (h.current_mission_init.map MissionInitSpec.experiment_id).getD ""

/-- The reservation loop of `AgentHost::reserveClients`: walk the pool in
order, skip unreachable hosts, count replies beginning with the
reservation token, stop early once `clients_required` reaches zero.
Returns the provisionally reserved hosts and the remaining requirement. -/
def reserveLoop (probe : Probe) (request : String) :
    List ClientInfo → Int → List ClientInfo → List ClientInfo × Int
  | [], clients_required, reserved => (reserved, clients_required)
  | item :: rest, clients_required, reserved =>
    match probe item request with
    | none => reserveLoop probe request rest clients_required reserved
    | some reply =>
      if beginsWith malmo_reservation_token reply then
        if clients_required - 1 == 0 then (reserved ++ [item], 0)
        else reserveLoop probe request rest (clients_required - 1) (reserved ++ [item])
      else reserveLoop probe request rest clients_required reserved

/-- `AgentHost::reserveClients`: first component is the returned
reservation; second component is the list of hosts to which the
cancellation message `malmo_cancel_request` is sent (best-effort, replies
ignored) when the pool is exhausted before the requirement is met. -/
def reserveClients (probe : Probe) (experiment_id : String)
    (client_pool : List ClientInfo) (clients_required : Int) :
    List ClientInfo × List ClientInfo :=
  let (reserved, remaining) :=
    reserveLoop probe (reservation_request experiment_id) client_pool clients_required []
  if remaining > 0 then ([], reserved) else (reserved, [])

def setMinecraftServerInformation (h : AgentHostState) (address : String)
    (port : Int) : AgentHostState :=
  { h with current_mission_init :=
      h.current_mission_init.map (fun m => { m with minecraft_server := some (address, port) }) }

def substrLen (s : String) (pos len : Nat) : String :=
  String.mk ((s.toList.drop pos).take len)

def substrFrom (s : String) (pos : Nat) : String :=
  String.mk (s.toList.drop pos)

def takeChars (s : String) (n : Nat) : String :=
  String.mk (s.toList.take n)

/-- Index of the first colon, mirroring `reply.find_first_of(':')`. -/
def findColon (s : String) : Option Nat :=
  s.toList.findIdx? (fun c => c == ':')

def isSpaceChar (c : Char) : Bool :=
  c == ' ' || c == '\t' || c == '\n' || c == '\r' || c.toNat == 11 || c.toNat == 12

def digitsToNat (l : List Char) : Nat :=
  l.foldl (fun acc c => acc * 10 + (c.toNat - 48)) 0

/-- `sscanf(s, "%d", &out)`: skip whitespace, optional sign, then at least
one digit; returns `none` when no integer can be read (sscanf result 0). -/
def sscanf_d (s : String) : Option Int :=
  let cs := s.toList.dropWhile isSpaceChar
  let signed : Int × List Char :=
    match cs with
    | '-' :: rest => (-1, rest)
    | '+' :: rest => (1, rest)
    | _ => (1, cs)
  let digs := signed.2.takeWhile Char.isDigit
  if digs.isEmpty then none else some (signed.1 * Int.ofNat (digitsToNat digs))

def server_not_found_msg : String :=
  "Failed to find the server for this mission - you must start the agent that has role 0 first."

def client_not_found_msg : String :=
  "Failed to find an available client for this mission - tried all the clients in the supplied client pool."

def malformed_reply_msg (reply : String) : String :=
  "Received malformed reply: " ++ reply

def mission_already_running_msg : String := "A mission is already running."

def not_enough_clients_msg (n : Int) : String :=
  "There are not enough clients availble in the ClientPool to start this " ++
    toString n ++ " agent mission."

/-- Loop body of `AgentHost::findServer`.  A thrown error carries the
state at the moment of the throw: the pool-exhausted throw happens after
`close()`, the malformed-reply throws happen without it. -/
def findServerLoop (probe : Probe) (request : String) (h : AgentHostState) :
    List ClientInfo → Except (String × AgentHostState) AgentHostState
  | [] => .error (server_not_found_msg, close h)
  | item :: rest =>
    match probe item request with
    | none => findServerLoop probe request h rest
    | some reply =>
      if beginsWith malmo_server_token reply then
        match findColon reply with
        | none => .error (malformed_reply_msg reply, h)
        | some colon =>
          let minecraft_server_address :=
            substrLen reply malmo_server_token.length (colon - malmo_server_token.length)
          let minecraft_server_port_as_string := substrFrom reply (colon + 1)
          match sscanf_d minecraft_server_port_as_string with
          | none => .error (malformed_reply_msg reply, h)
          | some minecraft_server_port =>
            .ok (setMinecraftServerInformation h minecraft_server_address minecraft_server_port)
      else findServerLoop probe request h rest

/-- `AgentHost::findServer`. -/
def findServer (probe : Probe) (h : AgentHostState)
    (client_pool : List ClientInfo) : Except (String × AgentHostState) AgentHostState :=
  findServerLoop probe (find_server_request (experimentIdOf h)) h client_pool

/-- `setClientAddress` / `setClientMissionControlPort` applied before each
`findClient` probe. -/
def setClientInfo (h : AgentHostState) (item : ClientInfo) : AgentHostState :=
  { h with current_mission_init := h.current_mission_init.map (fun m =>
      { m with client_address := item.ip_address
               client_mission_control_port := item.port }) }

/-- Loop body of `AgentHost::findClient`, iterating `i` over the index
list and probing host `(i + role) mod poolSize`; `current_role` is
nonnegative (validated by `startMission`).  `gen_xml` is the injected
`generateMissionInit` serializer (external XML generation).  Also returns
the trace of hosts a send was attempted to, in order. -/
def findClientLoop (probe : Probe) (gen_xml : AgentHostState → String)
    (client_pool : List ClientInfo) (h : AgentHostState) :
    List Nat → List ClientInfo →
    (Except (String × AgentHostState) AgentHostState) × List ClientInfo
  | [], attempted => (.error (client_not_found_msg, close h), attempted)
  | i :: rest, attempted =>
    let item := client_pool.getD ((i + h.current_role.toNat) % client_pool.length) default
    let h' := setClientInfo h item
    let mission_init_xml := gen_xml h' ++ "\n"
    match probe item mission_init_xml with
    | none => findClientLoop probe gen_xml client_pool h' rest (attempted ++ [item])
    | some reply =>
      if reply == malmo_mission_accepted then (.ok h', attempted ++ [item])
      else findClientLoop probe gen_xml client_pool h' rest (attempted ++ [item])

/-- `AgentHost::findClient`. -/
def findClient (probe : Probe) (gen_xml : AgentHostState → String)
    (h : AgentHostState) (client_pool : List ClientInfo) :
    (Except (String × AgentHostState) AgentHostState) × List ClientInfo :=
  findClientLoop probe gen_xml client_pool h (List.range client_pool.length) []

def role_error_msg (mission : MissionSpec) (role : Int) : String :=
  if mission.number_of_agents == 1 then
    "Role " ++ toString role ++ " is invalid for this single-agent mission - must be 0."
  else
    "Role " ++ toString role ++ " is invalid for this multi-agent mission - must be in range 0-" ++
      toString (mission.number_of_agents - 1) ++ "."

/-- `AgentHost::startMission` (five-argument overload): validations in
source order, then server initialization, optional reservation (role 0,
multi-agent), optional server search (role > 0, multi-agent, server
unknown), client search, and the final world-state clear.  A thrown error
carries the state at the moment of the throw. -/
def startMission (probe : Probe) (gen_xml : AgentHostState → String)
    (h : AgentHostState) (mission : MissionSpec) (client_pool : List ClientInfo)
    (mission_record : MissionRecordSpec) (role : Int)
    (unique_experiment_id : String) : Except (String × AgentHostState) AgentHostState :=
  if role < 0 || mission.number_of_agents ≤ role then
    .error (role_error_msg mission role, h)
  else if mission.is_video_requested role && mission.video_width role % 4 != 0 then
    .error ("Video width must be divisible by 4.", h)
  else if mission.is_video_requested role && mission.video_height role % 2 != 0 then
    .error ("Video height must be divisible by 2.", h)
  else if h.world_state.is_mission_running then
    .error (mission_already_running_msg, h)
  else
    let h1 := initializeOurServers h mission mission_record role unique_experiment_id
    let reserveStep : Except (String × AgentHostState) (List ClientInfo) :=
      if mission.number_of_agents > 1 && role == 0 then
        let reservedAgents :=
          (reserveClients probe (experimentIdOf h1) client_pool mission.number_of_agents).1
        if Int.ofNat reservedAgents.length != mission.number_of_agents then
          .error (not_enough_clients_msg mission.number_of_agents, h1)
        else .ok reservedAgents
      else .ok client_pool
    match reserveStep with
    | .error e => .error e
    | .ok pool =>
      let serverStep : Except (String × AgentHostState) AgentHostState :=
        if mission.number_of_agents > 1 && role > 0 &&
            !((h1.current_mission_init.map MissionInitSpec.hasMinecraftServerInformation).getD false) then
          findServer probe h1 pool
        else .ok h1
      match serverStep with
      | .error e => .error e
      | .ok h2 =>
        match (findClient probe gen_xml h2 pool).1 with
        | .error e => .error e
        | .ok h3 => .ok { h3 with world_state := WorldState.clear }

/-! Mission-control message handler.  XML reading and schema parsing are
external collaborators, injected as functions: `read_xml` models
`boost::property_tree::read_xml` (returning the list of top-level node
names, `[]` for an empty tree, an error for malformed XML),
`parse_mission_init` models the validating `MissionInitSpec` constructor,
`parse_mission_ended` models the `MissionEnded` schema parser.  Error
strings stand for the full rendering of the caught exception. -/

/-- Status codes of a parsed `MissionEnded` document; `OTHER` stands for
any status besides `ENDED` and `PLAYER_DIED`. -/
inductive MissionStatus where
  | ENDED
  | PLAYER_DIED
  | OTHER
  deriving Repr, DecidableEq

structure MissionEndedDoc where
  status : MissionStatus
  human_readable_status : String
  reward : Option Int
  deriving Repr, DecidableEq

/-- Append one entry to the world state's error sequence (the
`error_message` copy-then-replace-text pattern of the source). -/
def pushError (h : AgentHostState) (timestamp : Nat) (text : String) : AgentHostState :=
  { h with world_state :=
      { h.world_state with errors := h.world_state.errors ++ [⟨timestamp, text⟩] } }

/-- The final `push_back` of the handler: append the message verbatim to
the mission-control message sequence. -/
def appendMissionControlMessage (h : AgentHostState) (xml : TimestampedString) : AgentHostState :=
  { h with world_state :=
      { h.world_state with mission_control_messages :=
          h.world_state.mission_control_messages ++ [xml] } }

/-- `AgentHost::openCommandsConnection`: throws when the client commands
port is unknown (0), otherwise opens the outbound command channel. -/
def openCommandsConnection (h : AgentHostState) : Except String AgentHostState :=
  let mod_commands_port := (h.current_mission_init.map MissionInitSpec.client_commands_port).getD 0
  if mod_commands_port == 0 then
    .error "AgentHost::openCommandsConnection : client commands port is unknown! Has the mission started?"
  else
    .ok { h with commands_connection := true }

/-- `AgentHost::onMissionControlMessage`.  The result is `.error` only
when an exception escapes the handler (`openCommandsConnection`). -/
def onMissionControlMessage
    (read_xml : String → Except String (List String))
    (parse_mission_init : String → Except String MissionInitSpec)
    (parse_mission_ended : String → Except String MissionEndedDoc)
    (h : AgentHostState) (xml : TimestampedString) :
    Except String AgentHostState :=
  match read_xml xml.text with
  | .error e =>
    .ok (pushError h xml.timestamp
      ("Error parsing mission control message as XML: " ++ e ++ ":\n" ++
        takeChars xml.text 20 ++ "...\n"))
  | .ok pt =>
    match pt with
    | [] => .ok (pushError h xml.timestamp "Empty XML string in mission control message")
    | root_node_name :: _ =>
      if !h.world_state.is_mission_running && root_node_name == "MissionInit" then
        match parse_mission_init xml.text with
        | .error e =>
          .ok (pushError h xml.timestamp
            ("Error parsing MissionInit message XML: " ++ e ++ ":" ++
              takeChars xml.text 20 ++ "..."))
        | .ok mi =>
          let h1 := { h with
            current_mission_init := some mi
            world_state := { h.world_state with
              is_mission_running := true
              has_mission_begun := true } }
          match openCommandsConnection h1 with
          | .error e => .error e
          | .ok h2 => .ok (appendMissionControlMessage h2 xml)
      else if root_node_name == "MissionEnded" then
        match parse_mission_ended xml.text with
        | .error e =>
          .ok (pushError h xml.timestamp
            ("Error parsing MissionEnded message XML: " ++ e ++ ":" ++
              takeChars xml.text 20 ++ "..."))
        | .ok mission_ended =>
          let h1 :=
            match mission_ended.status with
            | .ENDED => h
            | .PLAYER_DIED => h
            | .OTHER => pushError h xml.timestamp
                ("Mission ended abnormally: " ++ mission_ended.human_readable_status)
          let h2 :=
            if h1.world_state.is_mission_running then
              match mission_ended.reward with
              | some r =>
                let final_reward : TimestampedReward := ⟨xml.timestamp, r⟩
                { h1 with
                  world_state := processReceivedReward h1.rewards_policy h1.world_state final_reward
                  rewards_server_recorded := h1.rewards_server_recorded ++ [final_reward] }
              | none => h1
            else h1
          .ok (appendMissionControlMessage (close h2) xml)
      else if root_node_name == "ping" then
        .ok (appendMissionControlMessage h xml)
      else
        .ok (pushError h xml.timestamp
          ("Unknown mission control message root node or at wrong time: " ++
            root_node_name ++ " :" ++ takeChars xml.text 200 ++ "..."))

/-- The `AgentHost` constructor defaults (`AgentHost.cpp:54-60`): video
policy LATEST_FRAME_ONLY, rewards policy SUM_REWARDS, observations policy
LATEST_OBSERVATION_ONLY, role 0, nothing initialized yet. -/
def initialAgentHostState : AgentHostState :=
  { world_state := WorldState.clear
    video_policy := .LATEST_FRAME_ONLY
    rewards_policy := .SUM_REWARDS
    observations_policy := .LATEST_OBSERVATION_ONLY
    current_role := 0
    current_mission_init := none
    current_mission_record := none
    mission_control_server := none
    video_server := none
    rewards_server := none
    observations_server := none
    commands_stream_open := false
    commands_connection := false
    rewards_server_recorded := [] }

/-- The pool reordered the way `findClient` walks it: element `i` is the
host at index `(i + role) mod poolSize`. -/
def rotatedPool (client_pool : List ClientInfo) (role : Nat) : List ClientInfo :=
  (List.range client_pool.length).map
    (fun i => client_pool.getD ((i + role) % client_pool.length) default)

/-- Whether a host accepts the mission during `findClient`: its reply to
the mission-init document is exactly the accepted token. -/
def acceptsMission (probe : Probe) (gen_xml : AgentHostState → String)
    (h : AgentHostState) (item : ClientInfo) : Bool :=
  probe item (gen_xml (setClientInfo h item) ++ "\n") == some malmo_mission_accepted

/-- Whether a host accepts a reservation: its reply begins with the
reservation token. -/
def acceptsReservation (probe : Probe) (request : String) (item : ClientInfo) : Bool :=
  match probe item request with
  | some reply => beginsWith malmo_reservation_token reply
  | none => false

/-- The handler run appended the message verbatim to the mission-control
message sequence. -/
def appendsVerbatim (r : Except String AgentHostState) (h : AgentHostState)
    (xml : TimestampedString) : Prop :=
  ∃ h', r = .ok h' ∧
    h'.world_state.mission_control_messages =
      h.world_state.mission_control_messages ++ [xml]

/-- The handler run recorded one error entry and did NOT append the
message to the mission-control message sequence. -/
def recordsErrorOnly (r : Except String AgentHostState) (h : AgentHostState) : Prop :=
  ∃ h', r = .ok h' ∧
    h'.world_state.mission_control_messages = h.world_state.mission_control_messages ∧
    h'.world_state.errors.length = h.world_state.errors.length + 1

/-! Helper lemmas about repeated deliveries. -/

theorem foldl_onVideo_latest_frames (m : TimestampedVideoFrame) :
    ∀ (ms : List TimestampedVideoFrame) (s : WorldState),
    (List.foldl (onVideo .LATEST_FRAME_ONLY) s (ms ++ [m])).video_frames = [m]
  | [], s => rfl
  | x :: ms, s => by
    simpa using foldl_onVideo_latest_frames m ms (onVideo .LATEST_FRAME_ONLY s x)

theorem foldl_onVideo_count (ms : List TimestampedVideoFrame) :
    ∀ (s : WorldState),
    (List.foldl (onVideo .LATEST_FRAME_ONLY) s ms).number_of_video_frames_since_last_state =
      s.number_of_video_frames_since_last_state + ms.length := by
  induction ms with
  | nil => intro s; simp
  | cons x ms ih =>
    intro s
    rw [List.foldl_cons, ih (onVideo .LATEST_FRAME_ONLY s x)]
    simp only [onVideo, List.length_cons]
    omega

theorem foldl_onObservation_latest (m : TimestampedString) :
    ∀ (ms : List TimestampedString) (s : WorldState),
    (List.foldl (onObservation .LATEST_OBSERVATION_ONLY) s (ms ++ [m])).observations = [m]
  | [], s => rfl
  | x :: ms, s => by
    simpa using foldl_onObservation_latest m ms (onObservation .LATEST_OBSERVATION_ONLY s x)

theorem foldl_onObservation_count (ms : List TimestampedString) :
    ∀ (s : WorldState),
    (List.foldl (onObservation .LATEST_OBSERVATION_ONLY) s ms).number_of_observations_since_last_state =
      s.number_of_observations_since_last_state + ms.length := by
  induction ms with
  | nil => intro s; simp
  | cons x ms ih =>
    intro s
    rw [List.foldl_cons, ih (onObservation .LATEST_OBSERVATION_ONLY s x)]
    simp only [onObservation, List.length_cons]
    omega

theorem foldl_reward_latest (m : TimestampedReward) :
    ∀ (ms : List TimestampedReward) (s : WorldState),
    (List.foldl (processReceivedReward .LATEST_REWARD_ONLY) s (ms ++ [m])).rewards = [m]
  | [], s => rfl
  | x :: ms, s => by
    simpa using foldl_reward_latest m ms (processReceivedReward .LATEST_REWARD_ONLY s x)

theorem foldl_reward_latest_count (ms : List TimestampedReward) :
    ∀ (s : WorldState),
    (List.foldl (processReceivedReward .LATEST_REWARD_ONLY) s ms).number_of_rewards_since_last_state =
      s.number_of_rewards_since_last_state + ms.length := by
  induction ms with
  | nil => intro s; simp
  | cons x ms ih =>
    intro s
    rw [List.foldl_cons, ih (processReceivedReward .LATEST_REWARD_ONLY s x)]
    simp only [processReceivedReward, List.length_cons]
    omega

/-- C1: `getWorldState` called twice with no intervening deliveries
returns the accumulated snapshot, then a snapshot with every sequence
empty and every since-last-state counter zero, with `is_mission_running`
and `has_mission_begun` identical in both returned snapshots and in the
retained state. -/
theorem C1_getWorldState_idempotent_drain (s : WorldState) :
    (getWorldState s).1 = s ∧
    ((getWorldState (getWorldState s).2).1.mission_control_messages = [] ∧
     (getWorldState (getWorldState s).2).1.observations = [] ∧
     (getWorldState (getWorldState s).2).1.rewards = [] ∧
     (getWorldState (getWorldState s).2).1.video_frames = [] ∧
     (getWorldState (getWorldState s).2).1.errors = [] ∧
     (getWorldState (getWorldState s).2).1.number_of_observations_since_last_state = 0 ∧
     (getWorldState (getWorldState s).2).1.number_of_rewards_since_last_state = 0 ∧
     (getWorldState (getWorldState s).2).1.number_of_video_frames_since_last_state = 0) ∧
    ((getWorldState s).1.is_mission_running = s.is_mission_running ∧
     (getWorldState s).1.has_mission_begun = s.has_mission_begun ∧
     (getWorldState (getWorldState s).2).1.is_mission_running = s.is_mission_running ∧
     (getWorldState (getWorldState s).2).1.has_mission_begun = s.has_mission_begun ∧
     (getWorldState (getWorldState s).2).2.is_mission_running = s.is_mission_running ∧
     (getWorldState (getWorldState s).2).2.has_mission_begun = s.has_mission_begun) :=
  ⟨rfl, ⟨rfl, rfl, rfl, rfl, rfl, rfl, rfl, rfl⟩, ⟨rfl, rfl, rfl, rfl, rfl, rfl⟩⟩

/-- C2: with the Sum rewards policy, delivering r1, r2, r3 in order to a
state holding no reward retains exactly one reward whose value is
r1 + r2 + r3 and whose timestamp is r3's. -/
theorem C2_sum_rewards (s : WorldState) (h0 : s.rewards = [])
    (r1 r2 r3 : TimestampedReward) :
    (processReceivedReward .SUM_REWARDS
      (processReceivedReward .SUM_REWARDS
        (processReceivedReward .SUM_REWARDS s r1) r2) r3).rewards =
      [{ timestamp := r3.timestamp, value := r1.value + r2.value + r3.value }] := by
  simp only [processReceivedReward, h0, TimestampedReward.add]
  norm_num
  omega

theorem C2_sum_rewards_witness :
    WorldState.clear.rewards = [] ∧
    (processReceivedReward .SUM_REWARDS
      (processReceivedReward .SUM_REWARDS
        (processReceivedReward .SUM_REWARDS WorldState.clear ⟨1, 3⟩) ⟨2, 5⟩) ⟨7, 11⟩).rewards =
      [{ timestamp := 7, value := 19 }] := by
  refine ⟨rfl, ?_⟩
  have h := C2_sum_rewards WorldState.clear rfl ⟨1, 3⟩ ⟨2, 5⟩ ⟨7, 11⟩
  simpa using h

/-- C3: for each LatestOnly policy (video, reward, observation), after N
deliveries to the kind's handler the corresponding sequence retains
exactly the last delivered item and the corresponding counter equals N
(the counter having been zero beforehand). -/
theorem C3_latest_only_policies
    (s : WorldState)
    (hv : s.number_of_video_frames_since_last_state = 0)
    (hr : s.number_of_rewards_since_last_state = 0)
    (ho : s.number_of_observations_since_last_state = 0)
    (vs : List TimestampedVideoFrame) (v : TimestampedVideoFrame)
    (rs : List TimestampedReward) (r : TimestampedReward)
    (os : List TimestampedString) (o : TimestampedString) :
    ((List.foldl (onVideo .LATEST_FRAME_ONLY) s (vs ++ [v])).video_frames = [v] ∧
     (List.foldl (onVideo .LATEST_FRAME_ONLY) s (vs ++ [v])).number_of_video_frames_since_last_state
       = (vs ++ [v]).length) ∧
    ((List.foldl (processReceivedReward .LATEST_REWARD_ONLY) s (rs ++ [r])).rewards = [r] ∧
     (List.foldl (processReceivedReward .LATEST_REWARD_ONLY) s (rs ++ [r])).number_of_rewards_since_last_state
       = (rs ++ [r]).length) ∧
    ((List.foldl (onObservation .LATEST_OBSERVATION_ONLY) s (os ++ [o])).observations = [o] ∧
     (List.foldl (onObservation .LATEST_OBSERVATION_ONLY) s (os ++ [o])).number_of_observations_since_last_state
       = (os ++ [o]).length) := by
  refine ⟨⟨foldl_onVideo_latest_frames v vs s, ?_⟩,
          ⟨foldl_reward_latest r rs s, ?_⟩,
          ⟨foldl_onObservation_latest o os s, ?_⟩⟩
  · rw [foldl_onVideo_count, hv]; omega
  · rw [foldl_reward_latest_count, hr]; omega
  · rw [foldl_onObservation_count, ho]; omega

theorem C3_latest_only_policies_witness :
    (WorldState.clear.number_of_video_frames_since_last_state = 0 ∧
     WorldState.clear.number_of_rewards_since_last_state = 0 ∧
     WorldState.clear.number_of_observations_since_last_state = 0) ∧
    (List.foldl (onVideo .LATEST_FRAME_ONLY) WorldState.clear
        [⟨1, 4, 2, 3, []⟩, ⟨2, 4, 2, 3, [7]⟩]).video_frames = [⟨2, 4, 2, 3, [7]⟩] ∧
    (List.foldl (onVideo .LATEST_FRAME_ONLY) WorldState.clear
        [⟨1, 4, 2, 3, []⟩, ⟨2, 4, 2, 3, [7]⟩]).number_of_video_frames_since_last_state = 2 := by
  refine ⟨⟨rfl, rfl, rfl⟩, ?_⟩
  have h := C3_latest_only_policies WorldState.clear rfl rfl rfl
    [⟨1, 4, 2, 3, []⟩] ⟨2, 4, 2, 3, [7]⟩ [] ⟨0, 0⟩ [] ⟨0, ""⟩
  exact ⟨h.1.1, h.1.2⟩

/-- C10: when the reward payload fails to parse, `onReward` appends
exactly one error entry and leaves everything else in the world state
unchanged; in particular the retained rewards and the rewards counter are
untouched. -/
theorem C10_onReward_parse_failure
    (parse : Nat → String → Except String TimestampedReward)
    (rewards_policy : RewardsPolicy) (s : WorldState)
    (message : TimestampedString) (e : String)
    (hp : parse message.timestamp message.text = .error e) :
    onReward parse rewards_policy s message =
      { s with errors := s.errors ++
          [{ timestamp := message.timestamp
             text := "Error parsing Reward message: " ++ e ++ " : " ++ message.text }] } ∧
    (onReward parse rewards_policy s message).rewards = s.rewards ∧
    (onReward parse rewards_policy s message).number_of_rewards_since_last_state =
      s.number_of_rewards_since_last_state := by
  simp [onReward, hp]

theorem C10_onReward_parse_failure_witness :
    ((fun (_ : Nat) (_ : String) => (.error "bad" : Except String TimestampedReward)) 5 "oops"
        = .error "bad") ∧
    onReward (fun _ _ => .error "bad") .SUM_REWARDS WorldState.clear ⟨5, "oops"⟩ =
      { WorldState.clear with errors :=
          [{ timestamp := 5, text := "Error parsing Reward message: bad : oops" }] } := by
  refine ⟨rfl, ?_⟩
  have h := C10_onReward_parse_failure (fun _ _ => .error "bad") .SUM_REWARDS
    WorldState.clear ⟨5, "oops"⟩ "bad" rfl
  simpa using h.1

/-- C4: when a mission is already running (and the earlier role and video
validations pass), `startMission` fails with the "already running" error
and returns the state completely unchanged: the negotiation record is not
replaced or mutated and no listener is created or replaced. -/
theorem C4_startMission_already_running
    (probe : Probe) (gen_xml : AgentHostState → String)
    (h : AgentHostState) (mission : MissionSpec) (client_pool : List ClientInfo)
    (mission_record : MissionRecordSpec) (role : Int) (unique_experiment_id : String)
    (hrole : (role < 0 || mission.number_of_agents ≤ role) = false)
    (hw : (mission.is_video_requested role && mission.video_width role % 4 != 0) = false)
    (hh : (mission.is_video_requested role && mission.video_height role % 2 != 0) = false)
    (hrun : h.world_state.is_mission_running = true) :
    startMission probe gen_xml h mission client_pool mission_record role unique_experiment_id =
      .error (mission_already_running_msg, h) := by
  simp [startMission, hrole, hw, hh, hrun]

theorem C4_startMission_already_running_witness :
    (((0 : Int) < 0 || (1 : Int) ≤ 0) = false ∧
     { initialAgentHostState with
       world_state := { WorldState.clear with is_mission_running := true } }.world_state.is_mission_running = true) ∧
    startMission (fun _ _ => none) (fun _ => "")
      { initialAgentHostState with
        world_state := { WorldState.clear with is_mission_running := true } }
      ⟨1, fun _ => false, fun _ => 0, fun _ => 0, fun _ => 0⟩ []
      ⟨false, false, false, false, false⟩ 0 "" =
      .error (mission_already_running_msg,
        { initialAgentHostState with
          world_state := { WorldState.clear with is_mission_running := true } }) := by
  refine ⟨⟨by decide, rfl⟩, ?_⟩
  exact C4_startMission_already_running (fun _ _ => none) (fun _ => "")
    { initialAgentHostState with
      world_state := { WorldState.clear with is_mission_running := true } }
    ⟨1, fun _ => false, fun _ => 0, fun _ => 0, fun _ => 0⟩ []
    ⟨false, false, false, false, false⟩ 0 "" (by decide) (by decide) (by decide) rfl

/-! Helper lemmas for the findClient loop. -/

theorem setClientInfo_twice (h : AgentHostState) (a b : ClientInfo) :
    setClientInfo (setClientInfo h a) b = setClientInfo h b := by
  cases hm : h.current_mission_init with
  | none => simp [setClientInfo, hm]
  | some m => simp [setClientInfo, hm]

theorem find?_congr {α : Type} (p q : α → Bool) (hpq : ∀ a, p a = q a) :
    ∀ l : List α, l.find? p = l.find? q
  | [] => rfl
  | a :: l => by
    simp only [List.find?]
    rw [hpq a, find?_congr p q hpq l]

theorem acceptsMission_setClientInfo (probe : Probe) (gen_xml : AgentHostState → String)
    (h : AgentHostState) (a item : ClientInfo) :
    acceptsMission probe gen_xml (setClientInfo h a) item = acceptsMission probe gen_xml h item := by
  unfold acceptsMission
  rw [setClientInfo_twice]

theorem acceptsMission_probe (probe : Probe) (gen_xml : AgentHostState → String)
    (h : AgentHostState) (item : ClientInfo)
    (hacc : acceptsMission probe gen_xml h item = true) :
    probe item (gen_xml (setClientInfo h item) ++ "\n") = some malmo_mission_accepted := by
  unfold acceptsMission at hacc
  exact eq_of_beq hacc

theorem find?_cons_pos {α : Type} (p : α → Bool) (a : α) (l : List α) (h : p a = true) :
    (a :: l).find? p = some a := by
  simp [List.find?, h]

theorem find?_cons_neg {α : Type} (p : α → Bool) (a : α) (l : List α) (h : p a = false) :
    (a :: l).find? p = l.find? p := by
  simp [List.find?, h]

theorem findClientLoop_cons (probe : Probe) (gen_xml : AgentHostState → String)
    (client_pool : List ClientInfo) (h : AgentHostState) (i : Nat) (rest : List Nat)
    (attempted : List ClientInfo) (a : ClientInfo)
    (ha : client_pool.getD ((i + h.current_role.toNat) % client_pool.length) default = a) :
    findClientLoop probe gen_xml client_pool h (i :: rest) attempted =
      match probe a (gen_xml (setClientInfo h a) ++ "\n") with
      | none => findClientLoop probe gen_xml client_pool (setClientInfo h a) rest (attempted ++ [a])
      | some reply =>
        if reply == malmo_mission_accepted then (Except.ok (setClientInfo h a), attempted ++ [a])
        else findClientLoop probe gen_xml client_pool (setClientInfo h a) rest (attempted ++ [a]) := by
  subst ha; rfl

theorem findClientLoop_ok (probe : Probe) (gen_xml : AgentHostState → String)
    (client_pool : List ClientInfo) :
    ∀ (idxs : List Nat) (h : AgentHostState) (attempted : List ClientInfo) (item : ClientInfo),
    (idxs.map (fun i => client_pool.getD ((i + h.current_role.toNat) % client_pool.length) default)).find?
        (acceptsMission probe gen_xml h) = some item →
    (findClientLoop probe gen_xml client_pool h idxs attempted).1 = .ok (setClientInfo h item)
  | [], h, attempted, item => by intro hfind; simp [List.find?] at hfind
  | i :: rest, h, attempted, item => by
    intro hfind
    simp only [List.map_cons] at hfind
    set a := client_pool.getD ((i + h.current_role.toNat) % client_pool.length) default with ha
    rw [findClientLoop_cons probe gen_xml client_pool h i rest attempted a ha.symm]
    cases hacc : acceptsMission probe gen_xml h a with
    | true =>
      rw [find?_cons_pos _ _ _ hacc, Option.some.injEq] at hfind
      subst hfind
      have hp := acceptsMission_probe probe gen_xml h a hacc
      rw [hp]
      simp
    | false =>
      rw [find?_cons_neg _ _ _ hacc] at hfind
      have hrest :
          (rest.map (fun i => client_pool.getD
              ((i + h.current_role.toNat) % client_pool.length) default)).find?
            (acceptsMission probe gen_xml (setClientInfo h a)) = some item := by
        rw [find?_congr (acceptsMission probe gen_xml (setClientInfo h a))
          (acceptsMission probe gen_xml h) (acceptsMission_setClientInfo probe gen_xml h a)]
        exact hfind
      have ih := findClientLoop_ok probe gen_xml client_pool rest (setClientInfo h a)
        (attempted ++ [a]) item hrest
      rw [setClientInfo_twice] at ih
      cases hp : probe a (gen_xml (setClientInfo h a) ++ "\n") with
      | none => exact ih
      | some reply =>
        have hne : (reply == malmo_mission_accepted) = false := by
          by_contra hcon
          rw [Bool.not_eq_false] at hcon
          have hat : acceptsMission probe gen_xml h a = true := by
            unfold acceptsMission
            rw [hp]
            have hre := eq_of_beq hcon
            subst hre
            rfl
          rw [hat] at hacc
          exact Bool.true_eq_false.mp hacc
        simpa [hne] using ih

theorem findClientLoop_err (probe : Probe) (gen_xml : AgentHostState → String)
    (client_pool : List ClientInfo) :
    ∀ (idxs : List Nat) (h : AgentHostState) (attempted : List ClientInfo),
    (idxs.map (fun i => client_pool.getD ((i + h.current_role.toNat) % client_pool.length) default)).find?
        (acceptsMission probe gen_xml h) = none →
    ∃ h', (findClientLoop probe gen_xml client_pool h idxs attempted).1 =
      .error (client_not_found_msg, close h')
  | [], h, attempted => by intro _; exact ⟨h, rfl⟩
  | i :: rest, h, attempted => by
    intro hfind
    simp only [List.map_cons] at hfind
    set a := client_pool.getD ((i + h.current_role.toNat) % client_pool.length) default with ha
    rw [findClientLoop_cons probe gen_xml client_pool h i rest attempted a ha.symm]
    cases hacc : acceptsMission probe gen_xml h a with
    | true =>
      rw [find?_cons_pos _ _ _ hacc] at hfind
      exact absurd hfind (by simp)
    | false =>
      rw [find?_cons_neg _ _ _ hacc] at hfind
      have hrest :
          (rest.map (fun i => client_pool.getD
              ((i + h.current_role.toNat) % client_pool.length) default)).find?
            (acceptsMission probe gen_xml (setClientInfo h a)) = none := by
        rw [find?_congr (acceptsMission probe gen_xml (setClientInfo h a))
          (acceptsMission probe gen_xml h) (acceptsMission_setClientInfo probe gen_xml h a)]
        exact hfind
      obtain ⟨h2, ih⟩ := findClientLoop_err probe gen_xml client_pool rest (setClientInfo h a)
        (attempted ++ [a]) hrest
      cases hp : probe a (gen_xml (setClientInfo h a) ++ "\n") with
      | none => exact ⟨h2, ih⟩
      | some reply =>
        have hne : (reply == malmo_mission_accepted) = false := by
          by_contra hcon
          rw [Bool.not_eq_false] at hcon
          have hat : acceptsMission probe gen_xml h a = true := by
            unfold acceptsMission
            rw [hp]
            have hre := eq_of_beq hcon
            subst hre
            rfl
          rw [hat] at hacc
          exact Bool.true_eq_false.mp hacc
        exact ⟨h2, by simpa [hne] using ih⟩

/-- C5: `findClient` probes hosts in the order `(i + role) mod poolSize`
(for pool size 5 and role 3 the attempted-host trace is hosts 3,4,0,1,2),
succeeds exactly at the first host of that order whose reply is exactly
the accepted token (a reply merely starting with the token, such as
"MALMOOKAY", continues to the next host), and fails after exhausting the
pool with no accepted host. -/
theorem C5_findClient_probe_order :
    (∀ (probe : Probe) (gen_xml : AgentHostState → String) (h : AgentHostState)
        (client_pool : List ClientInfo) (item : ClientInfo),
      (rotatedPool client_pool h.current_role.toNat).find? (acceptsMission probe gen_xml h) = some item →
      (findClient probe gen_xml h client_pool).1 = .ok (setClientInfo h item)) ∧
    (∀ (probe : Probe) (gen_xml : AgentHostState → String) (h : AgentHostState)
        (client_pool : List ClientInfo),
      (rotatedPool client_pool h.current_role.toNat).find? (acceptsMission probe gen_xml h) = none →
      ∃ h', (findClient probe gen_xml h client_pool).1 =
        .error (client_not_found_msg, close h')) ∧
    ((findClient (fun _ _ => some "MALMOOKAY") (fun _ => "")
        { initialAgentHostState with current_role := 3 }
        [⟨"h0", 0⟩, ⟨"h1", 1⟩, ⟨"h2", 2⟩, ⟨"h3", 3⟩, ⟨"h4", 4⟩]).2 =
      [⟨"h3", 3⟩, ⟨"h4", 4⟩, ⟨"h0", 0⟩, ⟨"h1", 1⟩, ⟨"h2", 2⟩] ∧
     (findClient (fun _ _ => some "MALMOOKAY") (fun _ => "")
        { initialAgentHostState with current_role := 3 }
        [⟨"h0", 0⟩, ⟨"h1", 1⟩, ⟨"h2", 2⟩, ⟨"h3", 3⟩, ⟨"h4", 4⟩]).1 =
      .error (client_not_found_msg, close { initialAgentHostState with current_role := 3 })) := by
  refine ⟨?_, ?_, rfl, rfl⟩
  · intro probe gen_xml h client_pool item hfind
    exact findClientLoop_ok probe gen_xml client_pool (List.range client_pool.length) h [] item hfind
  · intro probe gen_xml h client_pool hfind
    exact findClientLoop_err probe gen_xml client_pool (List.range client_pool.length) h [] hfind

theorem C5_findClient_probe_order_witness :
    ((rotatedPool [⟨"a0", 0⟩, ⟨"a1", 1⟩] 0).find?
        (acceptsMission (fun c _ => if c.ip_address == "a1" then some "MALMOOK" else some "MALMOBUSY")
          (fun _ => "") initialAgentHostState) = some ⟨"a1", 1⟩ ∧
     (findClient (fun c _ => if c.ip_address == "a1" then some "MALMOOK" else some "MALMOBUSY")
        (fun _ => "") initialAgentHostState [⟨"a0", 0⟩, ⟨"a1", 1⟩]).1 =
       .ok (setClientInfo initialAgentHostState ⟨"a1", 1⟩)) ∧
    ((rotatedPool [⟨"b0", 5⟩] 0).find?
        (acceptsMission (fun _ _ => none) (fun _ => "") initialAgentHostState) = none ∧
     ∃ h', (findClient (fun _ _ => none) (fun _ => "") initialAgentHostState [⟨"b0", 5⟩]).1 =
       .error (client_not_found_msg, close h')) := by
  refine ⟨⟨by decide, ?_⟩, ⟨by decide, ?_⟩⟩
  · exact C5_findClient_probe_order.1
      (fun c _ => if c.ip_address == "a1" then some "MALMOOK" else some "MALMOBUSY")
      (fun _ => "") initialAgentHostState [⟨"a0", 0⟩, ⟨"a1", 1⟩] ⟨"a1", 1⟩ (by decide)
  · exact C5_findClient_probe_order.2.1 (fun _ _ => none) (fun _ => "")
      initialAgentHostState [⟨"b0", 5⟩] (by decide)

/-! Helper lemmas for reservation and startMission. -/

theorem reserveLoop_exhausted (probe : Probe) (request : String) :
    ∀ (client_pool : List ClientInfo) (clients_required : Int) (reserved : List ClientInfo),
    ((client_pool.filter (acceptsReservation probe request)).length : Int) < clients_required →
    reserveLoop probe request client_pool clients_required reserved =
      (reserved ++ client_pool.filter (acceptsReservation probe request),
       clients_required - (client_pool.filter (acceptsReservation probe request)).length)
  | [], clients_required, reserved => by
    intro _
    simp [reserveLoop]
  | item :: rest, clients_required, reserved => by
    intro hlt
    cases hp : probe item request with
    | none =>
      have hacc : acceptsReservation probe request item = false := by
        simp [acceptsReservation, hp]
      rw [List.filter_cons_of_neg (by simp [hacc])] at hlt ⊢
      simp only [reserveLoop, hp]
      exact reserveLoop_exhausted probe request rest clients_required reserved hlt
    | some reply =>
      cases hok : beginsWith malmo_reservation_token reply with
      | false =>
        have hacc : acceptsReservation probe request item = false := by
          simp [acceptsReservation, hp, hok]
        rw [List.filter_cons_of_neg (by simp [hacc])] at hlt ⊢
        simp only [reserveLoop, hp, hok, Bool.false_eq_true, if_false]
        exact reserveLoop_exhausted probe request rest clients_required reserved hlt
      | true =>
        have hacc : acceptsReservation probe request item = true := by
          simp [acceptsReservation, hp, hok]
        rw [List.filter_cons_of_pos (by simp [hacc])] at hlt ⊢
        have hlt2 : ((rest.filter (acceptsReservation probe request)).length : Int) <
            clients_required - 1 := by
          simp only [List.length_cons] at hlt
          push_cast at hlt ⊢
          omega
        have hne : (clients_required - 1 == 0) = false := by
          have hge : (0 : Int) ≤ ((rest.filter (acceptsReservation probe request)).length : Int) :=
            Int.natCast_nonneg _
          simp only [beq_eq_false_iff_ne, ne_eq]
          omega
        simp only [reserveLoop, hp, hok, hne, Bool.false_eq_true, if_false, if_true]
        rw [reserveLoop_exhausted probe request rest (clients_required - 1) (reserved ++ [item]) hlt2]
        simp only [Prod.mk.injEq, List.append_assoc, List.singleton_append, List.length_cons]
        refine ⟨trivial, ?_⟩
        push_cast
        omega

theorem reserveClients_exhausted (probe : Probe) (experiment_id : String)
    (client_pool : List ClientInfo) (count : Int)
    (hlt : ((client_pool.filter
        (acceptsReservation probe (reservation_request experiment_id))).length : Int) < count) :
    reserveClients probe experiment_id client_pool count =
      ([], client_pool.filter (acceptsReservation probe (reservation_request experiment_id))) := by
  unfold reserveClients
  rw [reserveLoop_exhausted probe (reservation_request experiment_id) client_pool count [] hlt]
  have hpos : (0 : Int) < count - ((client_pool.filter
      (acceptsReservation probe (reservation_request experiment_id))).length : Int) := by
    omega
  simp [hpos]

/-- C6: when the required client count exceeds the number of pool hosts
that accept a reservation, `reserveClients` sends the cancellation message
to every provisionally reserved host (exactly the accepting hosts, in pool
order) and returns an empty reservation, and `startMission` (multi-agent,
role 0) then fails with the "not enough clients" error, surfacing the
state as initialized (no mission started). -/
theorem C6_reserve_pool_exhausted :
    (∀ (probe : Probe) (experiment_id : String) (client_pool : List ClientInfo)
        (count : Int),
      ((client_pool.filter
          (acceptsReservation probe (reservation_request experiment_id))).length : Int) < count →
      reserveClients probe experiment_id client_pool count =
        ([], client_pool.filter
          (acceptsReservation probe (reservation_request experiment_id)))) ∧
    (∀ (probe : Probe) (gen_xml : AgentHostState → String) (h : AgentHostState)
        (mission : MissionSpec) (client_pool : List ClientInfo)
        (mission_record : MissionRecordSpec) (unique_experiment_id : String),
      h.world_state.is_mission_running = false →
      1 < mission.number_of_agents →
      (mission.is_video_requested 0 && mission.video_width 0 % 4 != 0) = false →
      (mission.is_video_requested 0 && mission.video_height 0 % 2 != 0) = false →
      ((client_pool.filter (acceptsReservation probe (reservation_request
          (experimentIdOf (initializeOurServers h mission mission_record 0
            unique_experiment_id))))).length : Int) < mission.number_of_agents →
      startMission probe gen_xml h mission client_pool mission_record 0 unique_experiment_id =
        .error (not_enough_clients_msg mission.number_of_agents,
          initializeOurServers h mission mission_record 0 unique_experiment_id)) := by
  constructor
  · intro probe experiment_id client_pool count hlt
    exact reserveClients_exhausted probe experiment_id client_pool count hlt
  · intro probe gen_xml h mission client_pool mission_record unique_experiment_id
      hrun hn hw hh hcnt
    have h1 : ¬((0 : Int) < 0) := by omega
    have h2 : ¬(mission.number_of_agents ≤ (0 : Int)) := by omega
    have h4 : ¬((0 : Int) = mission.number_of_agents) := by omega
    simp [startMission, h1, h2, hw, hh, hrun, hn,
      reserveClients_exhausted probe _ client_pool mission.number_of_agents hcnt, h4]

theorem C6_reserve_pool_exhausted_witness :
    ((([⟨"c0", 0⟩, ⟨"c1", 1⟩, ⟨"c2", 2⟩] : List ClientInfo).filter
        (acceptsReservation (fun _ _ => some "MALMOOK") (reservation_request "e"))).length : Int) < 5 ∧
    reserveClients (fun _ _ => some "MALMOOK") "e" [⟨"c0", 0⟩, ⟨"c1", 1⟩, ⟨"c2", 2⟩] 5 =
      ([], [⟨"c0", 0⟩, ⟨"c1", 1⟩, ⟨"c2", 2⟩]) ∧
    startMission (fun _ _ => some "MALMOOK") (fun _ => "") initialAgentHostState
      ⟨5, fun _ => false, fun _ => 0, fun _ => 0, fun _ => 0⟩
      [⟨"c0", 0⟩, ⟨"c1", 1⟩, ⟨"c2", 2⟩] ⟨false, false, false, false, false⟩ 0 "e" =
      .error (not_enough_clients_msg 5,
        initializeOurServers initialAgentHostState
          ⟨5, fun _ => false, fun _ => 0, fun _ => 0, fun _ => 0⟩
          ⟨false, false, false, false, false⟩ 0 "e") := by
  refine ⟨by decide, ?_, ?_⟩
  · have ha := C6_reserve_pool_exhausted.1 (fun _ _ => some "MALMOOK") "e"
      [⟨"c0", 0⟩, ⟨"c1", 1⟩, ⟨"c2", 2⟩] 5 (by decide)
    rw [ha]
    rfl
  · have hb := C6_reserve_pool_exhausted.2 (fun _ _ => some "MALMOOK") (fun _ => "")
      initialAgentHostState ⟨5, fun _ => false, fun _ => 0, fun _ => 0, fun _ => 0⟩
      [⟨"c0", 0⟩, ⟨"c1", 1⟩, ⟨"c2", 2⟩] ⟨false, false, false, false, false⟩ "e"
      rfl (by decide) (by decide) (by decide) (by decide)
    exact hb

/-! Helper lemmas about the mission-control handler's state changes. -/

theorem processReceivedReward_mcm (p : RewardsPolicy) (s : WorldState) (r : TimestampedReward) :
    (processReceivedReward p s r).mission_control_messages = s.mission_control_messages := by
  unfold processReceivedReward
  cases p <;> try rfl
  cases s.rewards <;> rfl

theorem close_mcm (h : AgentHostState) :
    (close h).world_state.mission_control_messages =
      h.world_state.mission_control_messages := rfl

theorem close_not_running (h : AgentHostState) :
    (close h).world_state.is_mission_running = false := rfl

theorem pushError_mcm (h : AgentHostState) (t : Nat) (m : String) :
    (pushError h t m).world_state.mission_control_messages =
      h.world_state.mission_control_messages := rfl

theorem pushError_errors (h : AgentHostState) (t : Nat) (m : String) :
    (pushError h t m).world_state.errors = h.world_state.errors ++ [⟨t, m⟩] := rfl

/-- C7 counterexample: a message classified as an error (here: malformed
XML) is appended to the error sequence but NOT to the mission-control
message sequence, contradicting the claim that error-classified messages
are appended verbatim as well. -/
theorem C7_counterexample :
    onMissionControlMessage (fun _ => .error "bad") (fun _ => .error "u")
        (fun _ => .error "u") initialAgentHostState ⟨3, "x"⟩ =
      .ok (pushError initialAgentHostState 3
        "Error parsing mission control message as XML: bad:\nx...\n") ∧
    (pushError initialAgentHostState 3
        "Error parsing mission control message as XML: bad:\nx...\n").world_state.mission_control_messages = [] ∧
    (pushError initialAgentHostState 3
        "Error parsing mission control message as XML: bad:\nx...\n").world_state.errors.length = 1 :=
  ⟨rfl, rfl, rfl⟩

/-- C7 (amended): the message is appended verbatim to the mission-control
sequence exactly when its classification completes without an early error
return — a successfully parsed MissionInit accepted while not running
(with the command channel opening normally), a successfully parsed
MissionEnded (even with abnormal status), or a ping; a message recorded as
an error (malformed XML, empty document, MissionInit/MissionEnded parse
failure, unknown or out-of-order root) goes to the error sequence only and
is NOT appended to the mission-control sequence. -/
theorem C7_mission_control_append
    (read_xml : String → Except String (List String))
    (parse_mission_init : String → Except String MissionInitSpec)
    (parse_mission_ended : String → Except String MissionEndedDoc)
    (h : AgentHostState) (xml : TimestampedString) :
    (∀ rest, read_xml xml.text = .ok ("ping" :: rest) →
      appendsVerbatim (onMissionControlMessage read_xml parse_mission_init
        parse_mission_ended h xml) h xml) ∧
    (∀ rest me, read_xml xml.text = .ok ("MissionEnded" :: rest) →
      parse_mission_ended xml.text = .ok me →
      appendsVerbatim (onMissionControlMessage read_xml parse_mission_init
        parse_mission_ended h xml) h xml) ∧
    (∀ rest mi, h.world_state.is_mission_running = false →
      read_xml xml.text = .ok ("MissionInit" :: rest) →
      parse_mission_init xml.text = .ok mi →
      (mi.client_commands_port == 0) = false →
      appendsVerbatim (onMissionControlMessage read_xml parse_mission_init
        parse_mission_ended h xml) h xml) ∧
    (∀ e, read_xml xml.text = .error e →
      recordsErrorOnly (onMissionControlMessage read_xml parse_mission_init
        parse_mission_ended h xml) h) ∧
    (read_xml xml.text = .ok [] →
      recordsErrorOnly (onMissionControlMessage read_xml parse_mission_init
        parse_mission_ended h xml) h) ∧
    (∀ root rest, read_xml xml.text = .ok (root :: rest) →
      (!h.world_state.is_mission_running && root == "MissionInit") = false →
      (root == "MissionEnded") = false → (root == "ping") = false →
      recordsErrorOnly (onMissionControlMessage read_xml parse_mission_init
        parse_mission_ended h xml) h) ∧
    (∀ rest e, h.world_state.is_mission_running = false →
      read_xml xml.text = .ok ("MissionInit" :: rest) →
      parse_mission_init xml.text = .error e →
      recordsErrorOnly (onMissionControlMessage read_xml parse_mission_init
        parse_mission_ended h xml) h) ∧
    (∀ rest e, read_xml xml.text = .ok ("MissionEnded" :: rest) →
      parse_mission_ended xml.text = .error e →
      recordsErrorOnly (onMissionControlMessage read_xml parse_mission_init
        parse_mission_ended h xml) h) := by
  refine ⟨?_, ?_, ?_, ?_, ?_, ?_, ?_, ?_⟩
  · intro rest hx
    unfold appendsVerbatim
    refine ⟨appendMissionControlMessage h xml, ?_, by simp [appendMissionControlMessage]⟩
    simp [onMissionControlMessage, hx]
  · intro rest me hx hme
    unfold appendsVerbatim
    simp only [onMissionControlMessage, hx, hme,
      show (("MissionEnded" : String) == "MissionInit") = false from rfl,
      show (("MissionEnded" : String) == "MissionEnded") = true from rfl,
      Bool.and_false, Bool.false_eq_true, if_false, if_true]
    refine ⟨_, rfl, ?_⟩
    cases hst : me.status <;> cases hrw : me.reward <;>
      simp only [hst, hrw] <;> split <;>
      simp [appendMissionControlMessage, close, pushError, processReceivedReward_mcm]
  · intro rest mi hrun hx hmi hport
    unfold appendsVerbatim
    simp only [onMissionControlMessage, hx, hmi, hrun,
      show (("MissionInit" : String) == "MissionInit") = true from rfl,
      Bool.not_false, Bool.and_true, if_true]
    simp only [openCommandsConnection, Option.map_some', Option.getD_some, hport,
      Bool.false_eq_true, if_false]
    refine ⟨_, rfl, by simp [appendMissionControlMessage]⟩
  · intro e hx
    refine ⟨pushError h xml.timestamp
      ("Error parsing mission control message as XML: " ++ e ++ ":\n" ++
        takeChars xml.text 20 ++ "...\n"), ?_, rfl, by simp [pushError]⟩
    simp [onMissionControlMessage, hx]
  · intro hx
    refine ⟨pushError h xml.timestamp "Empty XML string in mission control message",
      ?_, rfl, by simp [pushError]⟩
    simp [onMissionControlMessage, hx]
  · intro root rest hx hcond hne hnp
    refine ⟨pushError h xml.timestamp
      ("Unknown mission control message root node or at wrong time: " ++
        root ++ " :" ++ takeChars xml.text 200 ++ "..."), ?_, rfl, by simp [pushError]⟩
    simp [onMissionControlMessage, hx, hcond, hne, hnp]
  · intro rest e hrun hx hpf
    refine ⟨pushError h xml.timestamp
      ("Error parsing MissionInit message XML: " ++ e ++ ":" ++
        takeChars xml.text 20 ++ "..."), ?_, rfl, by simp [pushError]⟩
    simp [onMissionControlMessage, hx, hrun, hpf]
  · intro rest e hx hpf
    refine ⟨pushError h xml.timestamp
      ("Error parsing MissionEnded message XML: " ++ e ++ ":" ++
        takeChars xml.text 20 ++ "..."), ?_, rfl, by simp [pushError]⟩
    simp [onMissionControlMessage, hx, hpf]

theorem C7_mission_control_append_witness :
    appendsVerbatim (onMissionControlMessage (fun _ => .ok ["ping"]) (fun _ => .error "u")
      (fun _ => .error "u") initialAgentHostState ⟨1, "m"⟩) initialAgentHostState ⟨1, "m"⟩ ∧
    appendsVerbatim (onMissionControlMessage (fun _ => .ok ["MissionEnded"]) (fun _ => .error "u")
      (fun _ => .ok ⟨.ENDED, "ok", none⟩) initialAgentHostState ⟨1, "m"⟩) initialAgentHostState ⟨1, "m"⟩ ∧
    appendsVerbatim (onMissionControlMessage (fun _ => .ok ["MissionInit"])
      (fun _ => .ok ⟨"e", 0, 0, 0, 0, 0, "a", 0, 7, none⟩)
      (fun _ => .error "u") initialAgentHostState ⟨1, "m"⟩) initialAgentHostState ⟨1, "m"⟩ ∧
    recordsErrorOnly (onMissionControlMessage (fun _ => .error "bad") (fun _ => .error "u")
      (fun _ => .error "u") initialAgentHostState ⟨1, "m"⟩) initialAgentHostState ∧
    recordsErrorOnly (onMissionControlMessage (fun _ => .ok []) (fun _ => .error "u")
      (fun _ => .error "u") initialAgentHostState ⟨1, "m"⟩) initialAgentHostState ∧
    recordsErrorOnly (onMissionControlMessage (fun _ => .ok ["Strange"]) (fun _ => .error "u")
      (fun _ => .error "u") initialAgentHostState ⟨1, "m"⟩) initialAgentHostState ∧
    recordsErrorOnly (onMissionControlMessage (fun _ => .ok ["MissionInit"]) (fun _ => .error "pf")
      (fun _ => .error "u") initialAgentHostState ⟨1, "m"⟩) initialAgentHostState ∧
    recordsErrorOnly (onMissionControlMessage (fun _ => .ok ["MissionEnded"]) (fun _ => .error "u")
      (fun _ => .error "pf") initialAgentHostState ⟨1, "m"⟩) initialAgentHostState := by
  refine ⟨?_, ?_, ?_, ?_, ?_, ?_, ?_, ?_⟩
  · exact (C7_mission_control_append (fun _ => .ok ["ping"]) (fun _ => .error "u")
      (fun _ => .error "u") initialAgentHostState ⟨1, "m"⟩).1 [] rfl
  · exact (C7_mission_control_append (fun _ => .ok ["MissionEnded"]) (fun _ => .error "u")
      (fun _ => .ok ⟨.ENDED, "ok", none⟩) initialAgentHostState ⟨1, "m"⟩).2.1
      [] ⟨.ENDED, "ok", none⟩ rfl rfl
  · exact (C7_mission_control_append (fun _ => .ok ["MissionInit"])
      (fun _ => .ok ⟨"e", 0, 0, 0, 0, 0, "a", 0, 7, none⟩)
      (fun _ => .error "u") initialAgentHostState ⟨1, "m"⟩).2.2.1
      [] ⟨"e", 0, 0, 0, 0, 0, "a", 0, 7, none⟩ rfl rfl rfl (by decide)
  · exact (C7_mission_control_append (fun _ => .error "bad") (fun _ => .error "u")
      (fun _ => .error "u") initialAgentHostState ⟨1, "m"⟩).2.2.2.1 "bad" rfl
  · exact (C7_mission_control_append (fun _ => .ok []) (fun _ => .error "u")
      (fun _ => .error "u") initialAgentHostState ⟨1, "m"⟩).2.2.2.2.1 rfl
  · exact (C7_mission_control_append (fun _ => .ok ["Strange"]) (fun _ => .error "u")
      (fun _ => .error "u") initialAgentHostState ⟨1, "m"⟩).2.2.2.2.2.1
      "Strange" [] rfl (by decide) (by decide) (by decide)
  · exact (C7_mission_control_append (fun _ => .ok ["MissionInit"]) (fun _ => .error "pf")
      (fun _ => .error "u") initialAgentHostState ⟨1, "m"⟩).2.2.2.2.2.2.1 [] "pf" rfl rfl rfl
  · exact (C7_mission_control_append (fun _ => .ok ["MissionEnded"]) (fun _ => .error "u")
      (fun _ => .error "pf") initialAgentHostState ⟨1, "m"⟩).2.2.2.2.2.2.2 [] "pf" rfl rfl

/-- C8 counterexample: with a mission running, a MissionEnded message
whose document fails to parse records an error entry and returns WITHOUT
teardown — `is_mission_running` stays true, contradicting the claim that
teardown occurs regardless of parse outcome. -/
theorem C8_counterexample :
    onMissionControlMessage (fun _ => .ok ["MissionEnded"]) (fun _ => .error "u")
        (fun _ => .error "pfail")
        { initialAgentHostState with
          world_state := { WorldState.clear with is_mission_running := true } } ⟨4, "doc"⟩ =
      .ok (pushError { initialAgentHostState with
          world_state := { WorldState.clear with is_mission_running := true } } 4
        "Error parsing MissionEnded message XML: pfail:doc...") ∧
    (pushError { initialAgentHostState with
        world_state := { WorldState.clear with is_mission_running := true } } 4
      "Error parsing MissionEnded message XML: pfail:doc...").world_state.is_mission_running = true :=
  ⟨rfl, rfl⟩

/-- C8 (amended): when a MissionEnded document parses successfully,
teardown (close) runs regardless of status or final reward, leaving
`is_mission_running` false and the command channel and stream closed;
when parsing fails, exactly the error entry is recorded and NO teardown
occurs — the handler returns with the rest of the state (in particular
`is_mission_running`) unchanged. -/
theorem C8_mission_ended_teardown
    (read_xml : String → Except String (List String))
    (parse_mission_init : String → Except String MissionInitSpec)
    (parse_mission_ended : String → Except String MissionEndedDoc)
    (h : AgentHostState) (xml : TimestampedString) :
    (∀ rest me, read_xml xml.text = .ok ("MissionEnded" :: rest) →
      parse_mission_ended xml.text = .ok me →
      ∃ h', onMissionControlMessage read_xml parse_mission_init parse_mission_ended h xml =
          .ok h' ∧
        h'.world_state.is_mission_running = false ∧
        h'.commands_connection = false ∧
        h'.commands_stream_open = false) ∧
    (∀ rest e, read_xml xml.text = .ok ("MissionEnded" :: rest) →
      parse_mission_ended xml.text = .error e →
      onMissionControlMessage read_xml parse_mission_init parse_mission_ended h xml =
        .ok (pushError h xml.timestamp
          ("Error parsing MissionEnded message XML: " ++ e ++ ":" ++
            takeChars xml.text 20 ++ "...")) ∧
      (pushError h xml.timestamp
          ("Error parsing MissionEnded message XML: " ++ e ++ ":" ++
            takeChars xml.text 20 ++ "...")).world_state.is_mission_running =
        h.world_state.is_mission_running) := by
  constructor
  · intro rest me hx hme
    simp only [onMissionControlMessage, hx, hme,
      show (("MissionEnded" : String) == "MissionInit") = false from rfl,
      show (("MissionEnded" : String) == "MissionEnded") = true from rfl,
      Bool.and_false, Bool.false_eq_true, if_false, if_true]
    exact ⟨_, rfl, rfl, rfl, rfl⟩
  · intro rest e hx hpf
    constructor
    · simp only [onMissionControlMessage, hx, hpf,
        show (("MissionEnded" : String) == "MissionInit") = false from rfl,
        show (("MissionEnded" : String) == "MissionEnded") = true from rfl,
        Bool.and_false, Bool.false_eq_true, if_false, if_true]
    · rfl

theorem C8_mission_ended_teardown_witness :
    (∃ h', onMissionControlMessage (fun _ => .ok ["MissionEnded"]) (fun _ => .error "u")
        (fun _ => .ok ⟨.OTHER, "boom", some 3⟩)
        { initialAgentHostState with
          world_state := { WorldState.clear with is_mission_running := true } } ⟨4, "doc"⟩ =
        .ok h' ∧
      h'.world_state.is_mission_running = false ∧
      h'.commands_connection = false ∧
      h'.commands_stream_open = false) ∧
    onMissionControlMessage (fun _ => .ok ["MissionEnded"]) (fun _ => .error "u")
        (fun _ => .error "pf") initialAgentHostState ⟨4, "doc"⟩ =
      .ok (pushError initialAgentHostState 4
        "Error parsing MissionEnded message XML: pf:doc...") := by
  constructor
  · exact (C8_mission_ended_teardown (fun _ => .ok ["MissionEnded"]) (fun _ => .error "u")
      (fun _ => .ok ⟨.OTHER, "boom", some 3⟩)
      { initialAgentHostState with
        world_state := { WorldState.clear with is_mission_running := true } } ⟨4, "doc"⟩).1
      [] ⟨.OTHER, "boom", some 3⟩ rfl rfl
  · have hb := (C8_mission_ended_teardown (fun _ => .ok ["MissionEnded"]) (fun _ => .error "u")
      (fun _ => .error "pf") initialAgentHostState ⟨4, "doc"⟩).2 [] "pf" rfl rfl
    exact hb.1

theorem findServerLoop_exhausted (probe : Probe) (request : String) (h : AgentHostState) :
    ∀ (client_pool : List ClientInfo),
    (∀ item ∈ client_pool, ∀ reply, probe item request = some reply →
      beginsWith malmo_server_token reply = false) →
    findServerLoop probe request h client_pool = .error (server_not_found_msg, close h)
  | [] => fun _ => rfl
  | item :: rest => fun hall => by
    cases hp : probe item request with
    | none =>
      simp only [findServerLoop, hp]
      exact findServerLoop_exhausted probe request h rest
        (fun i hi r hr => hall i (List.mem_cons_of_mem _ hi) r hr)
    | some reply =>
      have hb := hall item (List.mem_cons_self _ _) reply hp
      simp only [findServerLoop, hp, hb, Bool.false_eq_true, if_false]
      exact findServerLoop_exhausted probe request h rest
        (fun i hi r hr => hall i (List.mem_cons_of_mem _ hi) r hr)

theorem close_idem (h : AgentHostState) : close (close h) = close h := by
  unfold close
  cases h.video_server <;> cases h.rewards_server <;> cases h.observations_server <;> rfl

/-- C9 counterexample: a fatal synchronous `startMission` failure caused
by a malformed server-found reply ("MALMOSfoo", no colon) surfaces WITHOUT
performing teardown: the surfaced state still has the rewards listener
recording (close was never applied), contradicting the claim that all
fatal failures close partially-started listeners before surfacing. -/
theorem C9_counterexample :
    startMission (fun _ _ => some "MALMOSfoo") (fun _ => "") initialAgentHostState
        ⟨2, fun _ => false, fun _ => 0, fun _ => 0, fun _ => 0⟩ [⟨"c", 10⟩]
        ⟨false, false, true, false, false⟩ 1 "e" =
      .error (malformed_reply_msg "MALMOSfoo",
        initializeOurServers initialAgentHostState
          ⟨2, fun _ => false, fun _ => 0, fun _ => 0, fun _ => 0⟩
          ⟨false, false, true, false, false⟩ 1 "e") ∧
    (initializeOurServers initialAgentHostState
        ⟨2, fun _ => false, fun _ => 0, fun _ => 0, fun _ => 0⟩
        ⟨false, false, true, false, false⟩ 1 "e").rewards_server = some ⟨0, true⟩ ∧
    close (initializeOurServers initialAgentHostState
        ⟨2, fun _ => false, fun _ => 0, fun _ => 0, fun _ => 0⟩
        ⟨false, false, true, false, false⟩ 1 "e") ≠
      initializeOurServers initialAgentHostState
        ⟨2, fun _ => false, fun _ => 0, fun _ => 0, fun _ => 0⟩
        ⟨false, false, true, false, false⟩ 1 "e" :=
  ⟨rfl, rfl, by decide⟩

/-- C9 (amended): the pool-exhaustion failures of discovery perform
teardown before surfacing — `findServer` with no affirmative host returns
the "server not found" error carrying `close h`, and `findClient` with no
accepting host returns the "no available client" error carrying a state in
torn-down form — but a malformed server-found reply (no colon separator,
or an unparsable port) in `findServer` is thrown WITHOUT teardown: the
error carries the state unchanged. -/
theorem C9_teardown_before_error
    (probe : Probe) (gen_xml : AgentHostState → String) (h : AgentHostState) :
    (∀ (client_pool : List ClientInfo),
      (∀ item ∈ client_pool, ∀ reply,
        probe item (find_server_request (experimentIdOf h)) = some reply →
        beginsWith malmo_server_token reply = false) →
      findServer probe h client_pool = .error (server_not_found_msg, close h)) ∧
    (∀ (client_pool : List ClientInfo),
      (rotatedPool client_pool h.current_role.toNat).find?
          (acceptsMission probe gen_xml h) = none →
      ∃ h2, (findClient probe gen_xml h client_pool).1 =
          .error (client_not_found_msg, h2) ∧ close h2 = h2) ∧
    (∀ (item : ClientInfo) (rest : List ClientInfo) (reply : String),
      probe item (find_server_request (experimentIdOf h)) = some reply →
      beginsWith malmo_server_token reply = true →
      findColon reply = none →
      findServer probe h (item :: rest) = .error (malformed_reply_msg reply, h)) ∧
    (∀ (item : ClientInfo) (rest : List ClientInfo) (reply : String) (colon : Nat),
      probe item (find_server_request (experimentIdOf h)) = some reply →
      beginsWith malmo_server_token reply = true →
      findColon reply = some colon →
      sscanf_d (substrFrom reply (colon + 1)) = none →
      findServer probe h (item :: rest) = .error (malformed_reply_msg reply, h)) := by
  refine ⟨?_, ?_, ?_, ?_⟩
  · intro client_pool hall
    exact findServerLoop_exhausted probe (find_server_request (experimentIdOf h)) h
      client_pool hall
  · intro client_pool hfind
    obtain ⟨h1, he⟩ := findClientLoop_err probe gen_xml client_pool
      (List.range client_pool.length) h [] hfind
    exact ⟨close h1, he, close_idem h1⟩
  · intro item rest reply hp hb hcol
    simp [findServer, findServerLoop, hp, hb, hcol]
  · intro item rest reply colon hp hb hcol hscan
    simp [findServer, findServerLoop, hp, hb, hcol, hscan]

theorem C9_teardown_before_error_witness :
    findServer (fun _ _ => some "NOPE") initialAgentHostState [⟨"c", 1⟩] =
      .error (server_not_found_msg, close initialAgentHostState) ∧
    (∃ h2, (findClient (fun _ _ => none) (fun _ => "") initialAgentHostState [⟨"d", 2⟩]).1 =
        .error (client_not_found_msg, h2) ∧ close h2 = h2) ∧
    findServer (fun _ _ => some "MALMOSfoo") initialAgentHostState [⟨"c", 1⟩] =
      .error (malformed_reply_msg "MALMOSfoo", initialAgentHostState) ∧
    findServer (fun _ _ => some "MALMOS:xy") initialAgentHostState [⟨"c", 1⟩] =
      .error (malformed_reply_msg "MALMOS:xy", initialAgentHostState) := by
  refine ⟨?_, ?_, ?_, ?_⟩
  · refine (C9_teardown_before_error (fun _ _ => some "NOPE") (fun _ => "")
      initialAgentHostState).1 [⟨"c", 1⟩] ?_
    intro i hi r hr
    simp only [Option.some.injEq] at hr
    subst hr
    decide
  · exact (C9_teardown_before_error (fun _ _ => none) (fun _ => "")
      initialAgentHostState).2.1 [⟨"d", 2⟩] (by decide)
  · exact (C9_teardown_before_error (fun _ _ => some "MALMOSfoo") (fun _ => "")
      initialAgentHostState).2.2.1 ⟨"c", 1⟩ [] "MALMOSfoo" rfl (by decide) (by decide)
  · exact (C9_teardown_before_error (fun _ _ => some "MALMOS:xy") (fun _ => "")
      initialAgentHostState).2.2.2 ⟨"c", 1⟩ [] "MALMOS:xy" 6 rfl (by decide) (by decide) (by decide)

end Malmo
